import Mathlib

/-!
Verification of the specification of cdash-mcp, a thin adapter exposing the
CDash REST API as MCP tools.  The development shallowly embeds the two source
files `src/cdash_mcp/client.py` (HTTP transport, error taxonomy, query/filter
building) and `src/cdash_mcp/server.py` (per-tool pagination and Markdown-like
text rendering).  Machine-level details (the HTTP wire protocol, the asyncio
event loop) are abstracted: each request is modelled by its observable outcome
(connect failure, timeout, or a status/body pair), and each tool is a pure
function from its parameters and the upstream outcome to either a returned
text (`Except.ok`) or a raised Python exception (`Except.error`).
-/

namespace CdashMcp

/-- Parsed JSON values, as returned by `resp.json()` in `client.py`.
Numbers are modelled as integers (the fields the code reads are counts and
identifiers). -/
inductive Json where
  | null : Json
  | bool (b : Bool) : Json
  | num (n : Int) : Json
  | str (s : String) : Json
  | arr (elems : List Json) : Json
  | obj (fields : List (String × Json)) : Json
deriving Repr

/-- First binding of a key in a JSON object; `none` when the key is absent or
the value is not an object (Python `dict.get` returns `None` for a missing
key). -/
def Json.getField? : Json → String → Option Json
  | .obj fields, k => fields.lookup k
  | _, _ => none

/-- Python `dict.get(k, default)` on a parsed-JSON object. -/
def Json.getD (j : Json) (k : String) (default : Json) : Json :=
  match j.getField? k with
  | some v => v
  | none => default

/-- Python truthiness of a parsed-JSON value (`None`, `False`, `0`, `""`,
`[]` and the empty dict are falsy). -/
def Json.truthy : Json → Bool
  | .null => false
  | .bool b => b
  | .num n => n != 0
  | .str s => s != ""
  | .arr xs => !xs.isEmpty
  | .obj fs => !fs.isEmpty

mutual

/-- Python `repr` of a parsed-JSON value (string escaping is not modelled;
none of the verified properties inspect repr output of strings containing
quotes). -/
def Json.pyRepr : Json → String
  | .null => "None"
  | .bool true => "True"
  | .bool false => "False"
  | .num n => toString n
  | .str s => "\x27" ++ s ++ "\x27"
  | .arr xs => "[" ++ Json.pyReprElems xs ++ "]"
  | .obj fs => "\x7b" ++ Json.pyReprFields fs ++ "\x7d"

/-- Comma-separated `repr`s of list elements. -/
def Json.pyReprElems : List Json → String
  | [] => ""
  | [x] => x.pyRepr
  | x :: y :: rest => x.pyRepr ++ ", " ++ Json.pyReprElems (y :: rest)

/-- Comma-separated `repr`s of dict entries. -/
def Json.pyReprFields : List (String × Json) → String
  | [] => ""
  | [(k, v)] => "\x27" ++ k ++ "\x27: " ++ v.pyRepr
  | (k, v) :: p :: rest =>
      "\x27" ++ k ++ "\x27: " ++ v.pyRepr ++ ", " ++ Json.pyReprFields (p :: rest)

end

/-- Python `str` of a parsed-JSON value, as used by f-string interpolation. -/
def Json.pyStr : Json → String
  | .str s => s
  | j => j.pyRepr

/-- Python exceptions observable in this codebase.  `cdashAuth`,
`cdashNotFound` and `cdashConnection` are the three subclasses of the
`CDashError` base class defined in `client.py:12-25`; `httpStatusError` is
httpx's `HTTPStatusError` raised by `resp.raise_for_status()`
(`client.py:85`); `jsonDecodeError` models `resp.json()` failing on a non-JSON
2xx body; `typeError` and `valueError` are the Python builtins. -/
inductive PyExc where
  | cdashAuth (msg : String) : PyExc
  | cdashNotFound (msg : String) : PyExc
  | cdashConnection (msg : String) : PyExc
  | httpStatusError (status : Int) : PyExc
  | jsonDecodeError (msg : String) : PyExc
  | typeError (msg : String) : PyExc
  | valueError (msg : String) : PyExc
deriving Repr, DecidableEq

/-- Whether the exception is an instance of the `CDashError` base class
(`client.py:12`): exactly the three subclasses defined there.  httpx and
builtin exceptions are not `CDashError`s. -/
def PyExc.isCDashError : PyExc → Bool
  | .cdashAuth _ => true
  | .cdashNotFound _ => true
  | .cdashConnection _ => true
  | _ => false

/-- Python `str(e)` of an exception: the message it was constructed with.
For `HTTPStatusError` httpx formats a message from the status; only the
status matters to the verified properties. -/
def PyExc.message : PyExc → String
  | .cdashAuth m => m
  | .cdashNotFound m => m
  | .cdashConnection m => m
  | .httpStatusError s => "HTTP status error " ++ toString s
  | .jsonDecodeError m => m
  | .typeError m => m
  | .valueError m => m

/-- Observable outcome of one HTTP GET issued by the shared httpx session:
a connect failure (`httpx.ConnectError`), a timeout
(`httpx.TimeoutException`), or a response carrying a status code and a body
(`some j` when the body is valid JSON parsing to `j`, `none` otherwise). -/
inductive HttpOutcome where
  | connectError (cause : String) : HttpOutcome
  | timeout (cause : String) : HttpOutcome
  | response (status : Int) (body : Option Json) : HttpOutcome
deriving Repr

/-- Transport GET, `CDashClient._get` (`client.py:64-86`): classify the
outcome.  Connect failures and timeouts are re-raised as
`CDashConnectionError`; 401/403 raise `CDashAuthError`; 404 raises
`CDashNotFoundError` naming the path; any other non-2xx status makes
`resp.raise_for_status()` raise httpx's `HTTPStatusError` (httpx raises for
every status outside 200-299); a 2xx response returns `resp.json()`, which
raises a decode error when the body is not valid JSON. -/
def clientGet (base_url path : String) (outcome : HttpOutcome) : Except PyExc Json :=
  match outcome with
  | .connectError cause =>
      .error (.cdashConnection ("Cannot connect to " ++ base_url ++ ": " ++ cause))
  | .timeout cause =>
      .error (.cdashConnection ("Request to " ++ base_url ++ " timed out: " ++ cause))
  | .response status body =>
      if status = 401 ∨ status = 403 then
        .error (.cdashAuth ("Authentication failed (" ++ toString status ++
          "). Check your CDASH_TOKEN environment variable."))
      else if status = 404 then
        .error (.cdashNotFound ("Resource not found: " ++ path))
      else if ¬ (200 ≤ status ∧ status ≤ 299) then
        .error (.httpStatusError status)
      else
        match body with
        | some j => .ok j
        | none => .error (.jsonDecodeError "Expecting value")

/-- Tool-boundary error recovery.  Every tool in `server.py` wraps its single
client call in the same two lines
(`try: data = await client....` / `except CDashError as e: return f"Error: {e}"`,
e.g. `server.py:53-56`, `145-148`, `300-304`): an exception that is a
`CDashError` is converted to a normal `"Error: <message>"` text result;
any other exception propagates out of the tool. -/
def toolBoundary {A : Type} (fetch : Except PyExc A) (render : A → String) :
    Except PyExc String :=
  match fetch with
  | .ok a => .ok (render a)
  | .error e => if e.isCDashError then .ok ("Error: " ++ e.message) else .error e

/-- Effective limit, computed identically in every list-producing tool:
`limit = max(1, min(limit, 200))` (`server.py:150`, `306`, `387`, `577`,
`832`, `908`). -/
def effLimit (limit : Int) : Int := max 1 (min limit 200)

/-- Effective offset, computed identically in every list-producing tool:
`offset = max(0, offset)` (`server.py:151`, `307`, `388`, `578`, `833`,
`909`). -/
def effOffset (offset : Int) : Int := max 0 offset

/-- Modelled from the spec: `clamp(x, lo, hi)` in its conventional form
`min (max x lo) hi`, used to compare the code's window computation against
the spec's `clamp(limit, 1, 200)` wording. -/
def clampSpec (x lo hi : Int) : Int := min (max x lo) hi

/-- Python slice `xs[offset : offset + limit]` for the non-negative offsets
and positive limits produced by `effOffset`/`effLimit`. -/
def pySlice {α : Type} (xs : List α) (offset limit : Int) : List α :=
  (xs.drop offset.toNat).take limit.toNat

/-- Python truthiness of an optional-string parameter (`None` and the empty
string are falsy), as tested by `if date:` / `if test_name:` /
`if status_filter:` in the source. -/
def strOptTruthy : Option String → Bool
  | none => false
  | some s => s != ""

/-- Python `str.strip()` on a character list: drop leading and trailing
whitespace. -/
def pyStripChars (cs : List Char) : List Char :=
  ((cs.dropWhile Char.isWhitespace).reverse.dropWhile Char.isWhitespace).reverse

/-- Python `str.strip()`: drop leading and trailing whitespace. -/
def pyStrip (s : String) : String := String.mk (pyStripChars s.toList)

/-- Parse the digits of a decimal literal. -/
def parseDigits : List Char → Option Nat
  | [] => none
  | cs =>
      if cs.all Char.isDigit then
        some (cs.foldl (fun acc c => acc * 10 + (c.toNat - 48)) 0)
      else none

/-- Python `int(s)` on a string: optional surrounding whitespace, optional
sign, decimal digits; anything else raises `ValueError`.  (Underscore digit
grouping is not modelled; no call site produces it.) -/
def pyIntOfString (s : String) : Except PyExc Int :=
  let cs := pyStripChars s.toList
  match cs with
  | '-' :: rest =>
      match parseDigits rest with
      | some n => .ok (-(n : Int))
      | none => .error (.valueError ("invalid literal for int(): " ++ s))
  | '+' :: rest =>
      match parseDigits rest with
      | some n => .ok (n : Int)
      | none => .error (.valueError ("invalid literal for int(): " ++ s))
  | _ =>
      match parseDigits cs with
      | some n => .ok (n : Int)
      | none => .error (.valueError ("invalid literal for int(): " ++ s))

/-- Python `int(x)` on a parsed-JSON value: integers pass through, booleans
become 0/1, strings are parsed (raising `ValueError` on failure), and other
values raise `TypeError`. -/
def pyInt : Json → Except PyExc Int
  | .num n => .ok n
  | .bool b => .ok (if b then 1 else 0)
  | .str s => pyIntOfString s
  | .null => .error (.typeError "int() argument must not be None")
  | .arr _ => .error (.typeError "int() argument must not be a list")
  | .obj _ => .error (.typeError "int() argument must not be a dict")

/-- Python `str.capitalize()`: first character uppercased, the rest
lowercased. -/
def pyCapitalize (s : String) : String :=
  match s.toList with
  | [] => ""
  | c :: rest => String.mk (c.toUpper :: rest.map Char.toLower)

/-- Query parameters: a Python dict from parameter name to value, modelled
as an insertion-ordered association list (values that are Python ints in the
source, such as `buildid`, are stored in their query-string form). -/
abbrev Params := List (String × String)

/-- Python `d[k] = v` / `d.update(...)` entry semantics on an
insertion-ordered dict: replace the value in place when the key exists,
append at the end otherwise (the dicts built by the client never hold a key
twice). -/
def dictSet : Params → String → String → Params
  | [], k, v => [(k, v)]
  | (k1, v1) :: rest, k, v =>
      if k1 = k then (k, v) :: rest else (k1, v1) :: dictSet rest k v

/-- Python `d.get(k, default)` on a string-valued dict. -/
def dictGetD (d : Params) (k default : String) : String :=
  (d.lookup k).getD default

/-- The base parameters of `query_tests` (`client.py:117-119`): the project
and, when truthy, the date. -/
def baseParams (project : String) (date : Option String) : Params :=
  let params : Params := [("project", project)]
  match date with
  | some d => if d != "" then dictSet params "date" d else params
  | none => params

/-- The not-passed filter block of `query_tests` (`client.py:122-131`):
`params.update` with the five filter entries in the update dict's order. -/
def addNotPassedFilter (params : Params) : Params :=
  dictSet (dictSet (dictSet (dictSet (dictSet params
    "filtercount" "1") "showfilters" "1") "field1" "status")
    "compare1" "62") "value1" "Passed"

/-- The conversion `int(params.get("filtercount", "0"))` at `client.py:135`.
The looked-up value is always the literal "0" or "1" built a few lines
above, so the conversion never raises; the zero fallback is unreachable. -/
def filterCountVal (s : String) : Int :=
  match pyIntOfString s with
  | .ok n => n
  | .error _ => 0

/-- The test-name filter block of `query_tests` (`client.py:133-141`):
append a (`testname`, 63 "contains", name) triple at index
`int(params.get("filtercount", "0")) + 1`, updating `filtercount` and
setting `showfilters` and `filtercombine=and`. -/
def addTestNameFilter (params : Params) (tn : String) : Params :=
  let filter_idx : Int :=
    filterCountVal (dictGetD params "filtercount" "0") + 1
  let params := dictSet params "filtercount" (toString filter_idx)
  let params := dictSet params "showfilters" "1"
  let params := dictSet params "filtercombine" "and"
  let params := dictSet params ("field" ++ toString filter_idx) "testname"
  let params := dictSet params ("compare" ++ toString filter_idx) "63"
  dictSet params ("value" ++ toString filter_idx) tn

/-- Query parameters built by `CDashClient.query_tests`
(`client.py:102-143`): the base parameters; the not-passed filter block
when `status_filter == "not_passed"`; the test-name filter block when
`test_name` is truthy. -/
def queryTestsParams (project : String) (date : Option String)
    (test_name : Option String) (status_filter : String) : Params :=
  let params := baseParams project date
  let params :=
    if status_filter = "not_passed" then addNotPassedFilter params
    else params
  match test_name with
  | none => params
  | some tn => if tn = "" then params else addTestNameFilter params tn

/-- Query parameters built by `CDashClient.get_build_tests`
(`client.py:168-190`): `buildid`, and when `status_filter` is truthy a
single equality triple (`status`, 61 "is", the capitalized filter) with
`filtercount=1` and `showfilters=1`. -/
def buildTestsParams (build_id : Int) (status_filter : Option String) : Params :=
  let params : Params := [("buildid", toString build_id)]
  match status_filter with
  | none => params
  | some sf =>
      if sf = "" then params
      else
        dictSet (dictSet (dictSet (dictSet (dictSet params
          "filtercount" "1") "showfilters" "1") "field1" "status")
          "compare1" "61") "value1" (pyCapitalize sf)

/-- One upstream GET request: the fixed route and its query parameters. -/
structure Request where
  path : String
  params : Params
deriving Repr, DecidableEq

/-- Index request issued by `CDashClient._resolve_project_id`
(`client.py:206`). -/
def indexRequest (project_name : String) : Request :=
  ⟨"/api/v1/index.php", [("project", project_name)]⟩

/-- Name-to-numeric-ID resolution, `CDashClient._resolve_project_id`
(`client.py:200-210`), against an upstream oracle `net`; returns the list of
requests actually issued alongside the result.  `data.get("projectid")` is
`None` when the field is absent; `if not project_id:` fires on any falsy
value and raises `CDashNotFoundError` naming the project; otherwise
`int(project_id)` is returned (a `ValueError`/`TypeError` from `int`
propagates). -/
def resolveProjectId (net : Request → Except PyExc Json)
    (project_name : String) : List Request × Except PyExc Int :=
  let r := indexRequest project_name
  match net r with
  | .error e => ([r], .error e)
  | .ok data =>
      let project_id := data.getD "projectid" Json.null
      if !project_id.truthy then
        ([r], .error (.cdashNotFound ("Project not found: " ++ project_name)))
      else
        ([r], pyInt project_id)

/-- Test-summary request issued by `CDashClient.get_test_summary`
(`client.py:233-236`). -/
def testSummaryRequest (project_id : Int) (test_name : String)
    (date : Option String) : Request :=
  let params : Params := [("project", toString project_id), ("name", test_name)]
  let params :=
    match date with
    | some d => if d != "" then dictSet params "date" d else params
    | none => params
  ⟨"/api/v1/testSummary.php", params⟩

/-- Cross-build test summary, `CDashClient.get_test_summary`
(`client.py:222-236`): resolve the project name to a numeric ID first, and
only on success issue the dependent testSummary request.  The request log
records the order in which upstream requests are issued. -/
def clientGetTestSummary (net : Request → Except PyExc Json)
    (project test_name : String) (date : Option String) :
    List Request × Except PyExc Json :=
  match resolveProjectId net project with
  | (reqs, .error e) => (reqs, .error e)
  | (reqs, .ok project_id) =>
      let r2 := testSummaryRequest project_id test_name date
      (reqs ++ [r2], net r2)

/-- String value of a field of a parsed-JSON object with a default, as
rendered by an f-string: `str(obj.get(k, default))` (`str` of the default
string is itself). -/
def jStrD (j : Json) (k d : String) : String :=
  match j.getField? k with
  | some v => v.pyStr
  | none => d

/-- Integer value of a field with a default: `obj.get(k, 0)`-style count
lookups.  The dashboard and summary endpoints return numeric counts; a
non-numeric value is modelled by the default. -/
def jIntD (j : Json) (k : String) (d : Int) : Int :=
  match j.getField? k with
  | some (.num n) => n
  | _ => d

/-- List value of a field with an empty-list default: `obj.get(k, [])`.
A non-list value would make the subsequent `for` loop raise; the claims
quantify over list-shaped responses, so it is modelled by the default. -/
def jList (j : Json) (k : String) : List Json :=
  match j.getD k (.arr []) with
  | .arr xs => xs
  | _ => []

/-- One build row of the dashboard response, holding exactly the fields
`get_dashboard` reads (`server.py:78-86`): `buildname` / `site` / `id` via
`.get` with `"?"` defaults (rendered through `str`), and the nested
`configure.error`, `compilation.error`, `compilation.warning`, `test.fail`,
`test.notrun`, `test.pass` counts via `.get(..., {}).get(..., 0)`. -/
structure DashBuild where
  buildname : String
  site : String
  configure_error : Int
  compilation_error : Int
  compilation_warning : Int
  test_fail : Int
  test_notrun : Int
  test_pass : Int
  id : String
deriving Repr, DecidableEq

/-- Extraction of a dashboard build row from its JSON object
(`server.py:78-86`). -/
def extractDashBuild (b : Json) : DashBuild :=
  { buildname := jStrD b "buildname" "?"
    site := jStrD b "site" "?"
    configure_error := jIntD (b.getD "configure" (.obj [])) "error" 0
    compilation_error := jIntD (b.getD "compilation" (.obj [])) "error" 0
    compilation_warning := jIntD (b.getD "compilation" (.obj [])) "warning" 0
    test_fail := jIntD (b.getD "test" (.obj [])) "fail" 0
    test_notrun := jIntD (b.getD "test" (.obj [])) "notrun" 0
    test_pass := jIntD (b.getD "test" (.obj [])) "pass" 0
    id := jStrD b "id" "?" }

/-- The `has_issues` test of `server.py:88-90`: Python `or` over the four
counts, i.e. truthiness (non-zero) of any of configure errors, compile
errors, test failures, not-run tests. -/
def hasIssues (b : DashBuild) : Bool :=
  b.configure_error != 0 || b.compilation_error != 0 ||
    b.test_fail != 0 || b.test_notrun != 0

/-- The single line rendered for a shown dashboard build
(`server.py:93-111`): the status parts in source order, `"OK"` when all
counts are zero, and the `!!!` marker for builds with issues. -/
def dashBuildLine (b : DashBuild) : String :=
  let status_parts :=
    (if b.configure_error != 0 then
      ["configure_err=" ++ toString b.configure_error] else []) ++
    (if b.compilation_error != 0 then
      ["compile_err=" ++ toString b.compilation_error] else []) ++
    (if b.compilation_warning != 0 then
      ["warnings=" ++ toString b.compilation_warning] else []) ++
    (if b.test_fail != 0 then ["test_fail=" ++ toString b.test_fail] else []) ++
    (if b.test_notrun != 0 then
      ["test_notrun=" ++ toString b.test_notrun] else []) ++
    (if b.test_pass != 0 then ["test_pass=" ++ toString b.test_pass] else [])
  let status :=
    if status_parts.isEmpty then "OK" else String.intercalate ", " status_parts
  let marker := if hasIssues b then "!!!" else ""
  "- " ++ marker ++ "[id=" ++ b.id ++ "] " ++ b.buildname ++ " @ " ++
    b.site ++ ": " ++ status

/-- The per-group build loop of `get_dashboard` (`server.py:76-112`): walk
the builds keeping the `shown` counter; a build is rendered when
`has_issues or shown < 20`, and `shown` is incremented exactly when a line
is appended.  Returns the rendered lines and the final `shown` count. -/
def dashGroupLoop : List DashBuild → Nat → List String × Nat
  | [], shown => ([], shown)
  | b :: rest, shown =>
      if hasIssues b || shown < 20 then
        let r := dashGroupLoop rest (shown + 1)
        (dashBuildLine b :: r.1, r.2)
      else
        dashGroupLoop rest shown

/-- Rendering of one build group (`server.py:69-116`): header with the
build count, the loop's lines, the `... and N more builds` summary when
`shown < len(builds)`, and a trailing blank line. -/
def renderDashGroup (group_name : String) (builds : List DashBuild) :
    List String :=
  let r := dashGroupLoop builds 0
  ["## " ++ group_name ++ " (" ++ toString builds.length ++ " builds)", ""] ++
    r.1 ++
    (if r.2 < builds.length then
      ["  ... and " ++ toString (builds.length - r.2) ++ " more builds"]
    else []) ++
    [""]

/-- Rendering of the whole dashboard (`server.py:58-118`). -/
def renderDashboard (title dashboard_date : String)
    (groups : List (String × List DashBuild)) : List String :=
  let lines := ["# " ++ title ++ " - Dashboard (" ++ dashboard_date ++ ")", ""]
  if groups.isEmpty then lines ++ ["No build groups found."]
  else lines ++ groups.flatMap (fun g => renderDashGroup g.1 g.2)

/-- Extraction of the dashboard render inputs from the response JSON
(`server.py:59-71`): `title` defaulting to the project name, `datetime`
defaulting to `date or "today"`, and the `buildgroups` list with per-group
`name` (default `"Unknown"`) and `builds` (default `[]`). -/
def extractDashboard (project : String) (date : Option String) (data : Json) :
    String × String × List (String × List DashBuild) :=
  let title := jStrD data "title" project
  let dashboard_date :=
    jStrD data "datetime"
      (match date with
       | some d => if d != "" then d else "today"
       | none => "today")
  let groups := (jList data "buildgroups").map (fun g =>
    (jStrD g "name" "Unknown", (jList g "builds").map extractDashBuild))
  (title, dashboard_date, groups)

/-- The `get_dashboard` tool (`server.py:41-118`): fetch through the
transport layer, recover `CDashError`s as text at the tool boundary, render
on success. -/
def getDashboardTool (base_url project : String) (date : Option String)
    (outcome : HttpOutcome) : Except PyExc String :=
  toolBoundary (clientGet base_url "/api/v1/index.php" outcome) (fun data =>
    let d := extractDashboard project date data
    String.intercalate "\n" (renderDashboard d.1 d.2.1 d.2.2))

/-- One entry of the failing-tests query response, holding the fields
`get_failing_tests` reads (`server.py:179-184`) in their f-string rendered
form. -/
structure FailingTest where
  testname : String
  status : String
  buildName : String
  site : String
  details : String
  buildid : String
deriving Repr, DecidableEq

/-- Extraction of a failing-test entry (`server.py:179-184`). -/
def extractFailingTest (t : Json) : FailingTest :=
  { testname := jStrD t "testname" "?"
    status := jStrD t "status" "?"
    buildName := jStrD t "buildName" "?"
    site := jStrD t "site" "?"
    details := jStrD t "details" ""
    buildid := jStrD t "buildid" "?" }

/-- Truncation of the failing-test details field (`server.py:190-191`):
budget 200 characters, `"..."` marker. -/
def truncateFailingDetails (details : String) : String :=
  if details.length > 200 then details.take 200 ++ "..." else details

/-- Lines rendered for one failing-test entry (`server.py:186-193`). -/
def failingTestLines (t : FailingTest) : List String :=
  ["- **" ++ t.testname ++ "** [" ++ t.status ++ "]",
   "  Build: " ++ t.buildName ++ " @ " ++ t.site ++
     " (build_id=" ++ t.buildid ++ ")"] ++
  (if t.details != "" then
    ["  Details: " ++ truncateFailingDetails t.details] else []) ++
  [""]

/-- Pagination and rendering of `get_failing_tests` after the fetch
(`server.py:150-199`). -/
def renderFailingTests (project : String) (tests : List FailingTest)
    (limit offset : Int) : List String :=
  let limit := effLimit limit
  let offset := effOffset offset
  let lines := ["# Failing Tests for " ++ project, ""]
  if tests.isEmpty then lines ++ ["No failing tests found."]
  else
    let total := tests.length
    let page := pySlice tests offset limit
    if page.isEmpty then
      lines ++ ["Found " ++ toString total ++ " non-passing test result(s)" ++
        " — no results in this range (offset=" ++ toString offset ++ ")."]
    else
      lines ++
      ["Found " ++ toString total ++ " non-passing test result(s)" ++
        " (showing " ++ toString (offset + 1) ++ "–" ++
        toString (offset + (page.length : Int)) ++ "):", ""] ++
      page.flatMap failingTestLines ++
      (let remaining := (total : Int) - offset - (page.length : Int)
       if remaining > 0 then
         ["... " ++ toString remaining ++ " more (use offset=" ++
           toString (offset + limit) ++ " to see next page)"]
       else [])

/-- The `get_failing_tests` tool (`server.py:127-199`). -/
def getFailingTestsTool (base_url project : String)
    (_date _test_name : Option String) (limit offset : Int)
    (outcome : HttpOutcome) : Except PyExc String :=
  toolBoundary (clientGet base_url "/api/v1/queryTests.php" outcome)
    (fun data =>
      String.intercalate "\n"
        (renderFailingTests project
          ((jList data "builds").map extractFailingTest) limit offset))

/-- One entry of the build-tests response, holding the fields
`get_build_tests` reads (`server.py:411-415`). -/
structure BuildTest where
  name : String
  status : String
  execTime : String
  details : String
  buildtestid : String
deriving Repr, DecidableEq

/-- Extraction of a build-test entry (`server.py:411-415`). -/
def extractBuildTest (t : Json) : BuildTest :=
  { name := jStrD t "name" "?"
    status := jStrD t "status" "?"
    execTime := jStrD t "execTime" "?"
    details := jStrD t "details" ""
    buildtestid := jStrD t "buildtestid" "" }

/-- Fixed status-to-icon mapping (`server.py:417-419`): `Passed` to `+`,
`Failed` to `!`, `Not Run` to `-`, anything else to `?`. -/
def statusIcon (status : String) : String :=
  if status = "Passed" then "+"
  else if status = "Failed" then "!"
  else if status = "Not Run" then "-"
  else "?"

/-- Truncation of the build-test details field (`server.py:424-425`):
budget 150 characters, `"..."` marker. -/
def truncateBuildTestDetails (details : String) : String :=
  if details.length > 150 then details.take 150 ++ "..." else details

/-- The single line rendered per build test (`server.py:417-427`). -/
def buildTestLine (t : BuildTest) : String :=
  let line := "- [" ++ statusIcon t.status ++ "] **" ++ t.name ++ "** (" ++
    t.status ++ ", " ++ t.execTime ++ "s)"
  let line :=
    if t.buildtestid != "" then
      line ++ " [buildtestid=" ++ t.buildtestid ++ "]"
    else line
  if t.details != "" then line ++ " — " ++ truncateBuildTestDetails t.details
  else line

/-- Pagination and rendering of `get_build_tests` after the fetch
(`server.py:387-433`). -/
def renderBuildTests (build_id : Int) (status_filter : Option String)
    (tests : List BuildTest) (limit offset : Int) : List String :=
  let limit := effLimit limit
  let offset := effOffset offset
  let filter_label :=
    match status_filter with
    | some sf => if sf != "" then " (" ++ sf ++ ")" else ""
    | none => ""
  let lines := ["# Tests for build " ++ toString build_id ++ filter_label, ""]
  if tests.isEmpty then lines ++ ["No tests found."]
  else
    let total := tests.length
    let page := pySlice tests offset limit
    if page.isEmpty then
      lines ++ ["Found " ++ toString total ++
        " test(s) — no results in this range (offset=" ++
        toString offset ++ ")."]
    else
      lines ++
      ["Found " ++ toString total ++ " test(s) (showing " ++
        toString (offset + 1) ++ "–" ++
        toString (offset + (page.length : Int)) ++ "):", ""] ++
      page.map buildTestLine ++
      (let remaining := (total : Int) - offset - (page.length : Int)
       if remaining > 0 then
         ["\n... " ++ toString remaining ++ " more (use offset=" ++
           toString (offset + limit) ++ " to see next page)"]
       else [])

/-- The `get_build_tests` tool (`server.py:366-433`). -/
def getBuildTestsTool (base_url : String) (build_id : Int)
    (status_filter : Option String) (limit offset : Int)
    (outcome : HttpOutcome) : Except PyExc String :=
  toolBoundary (clientGet base_url "/api/v1/viewTest.php" outcome)
    (fun data =>
      String.intercalate "\n"
        (renderBuildTests build_id status_filter
          ((jList data "tests").map extractBuildTest) limit offset))

/-- One entry of the build-errors response, holding the fields
`get_build_errors` reads (`server.py:330-334`). -/
structure BuildErr where
  sourcefile : String
  sourceline : String
  text : String
  precontext : String
  postcontext : String
deriving Repr, DecidableEq

/-- Truncation of the compiler error text (`server.py:346-347`): budget 500
characters, `"..."` marker, applied to the stripped text. -/
def truncateErrorText (text : String) : String :=
  if text.length > 500 then text.take 500 ++ "..." else text

/-- Lines rendered for one build error (`server.py:330-351`);
`err.get("text", "").strip()` is modelled by `pyStrip`. -/
def buildErrLines (err : BuildErr) : List String :=
  let text := pyStrip err.text
  (if err.sourcefile != "" then
    [if err.sourceline != "" then
      "### " ++ err.sourcefile ++ ":" ++ err.sourceline
     else "### " ++ err.sourcefile]
   else ["### (no source location)"]) ++
  (if err.precontext != "" then
    ["```\n" ++ err.precontext ++ "\n```"] else []) ++
  (if text != "" then ["```\n" ++ truncateErrorText text ++ "\n```"]
   else []) ++
  (if err.postcontext != "" then
    ["```\n" ++ err.postcontext ++ "\n```"] else []) ++
  [""]

/-- Pagination and rendering of `get_build_errors` after the fetch
(`server.py:306-357`). -/
def renderBuildErrors (build_id : Int) (warnings : Bool)
    (errors : List BuildErr) (limit offset : Int) : List String :=
  let limit := effLimit limit
  let offset := effOffset offset
  let label := if warnings then "Warnings" else "Errors"
  let lines :=
    ["# Build " ++ label ++ " (build_id=" ++ toString build_id ++ ")", ""]
  if errors.isEmpty then lines ++ ["No " ++ label.toLower ++ " found."]
  else
    let total := errors.length
    let page := pySlice errors offset limit
    if page.isEmpty then
      lines ++ ["Found " ++ toString total ++ " " ++ label.toLower ++
        " — no results in this range (offset=" ++ toString offset ++ ")."]
    else
      lines ++
      ["Found " ++ toString total ++ " " ++ label.toLower ++ " (showing " ++
        toString (offset + 1) ++ "–" ++
        toString (offset + (page.length : Int)) ++ "):", ""] ++
      page.flatMap buildErrLines ++
      (let remaining := (total : Int) - offset - (page.length : Int)
       if remaining > 0 then
         ["... " ++ toString remaining ++ " more (use offset=" ++
           toString (offset + limit) ++ " to see next page)"]
       else [])

/-- Truncation of the configure output (`server.py:482-483`): budget 5000
characters with an explicit truncation marker. -/
def truncateConfigureOutput (output : String) : String :=
  if output.length > 5000 then
    output.take 5000 ++ "\n... (truncated, showing first 5000 chars)"
  else output

/-- Truncation of the test output (`server.py:540-541`): budget 8000
characters with an explicit truncation marker. -/
def truncateTestOutput (output : String) : String :=
  if output.length > 8000 then
    output.take 8000 ++ "\n... (truncated, showing first 8000 chars)"
  else output

/-- HTML-tag stripping, `re.sub(r"<[^>]+>", "", s)` (`server.py:867-870`),
on the character list: scanning left to right, a `<` followed by at least
one non-`>` character and then a `>` is removed together with the enclosed
run; any other character is kept. -/
def stripTagsAux (cs : List Char) : List Char :=
  match cs with
  | [] => []
  | c :: rest =>
      let seg := rest.takeWhile (fun x => x != '>')
      if c = '<' ∧ seg ≠ [] ∧ seg.length < rest.length then
        stripTagsAux (rest.drop (seg.length + 1))
      else
        c :: stripTagsAux rest
termination_by cs.length
decreasing_by
  · simp only [List.length_drop, List.length_cons]
    omega
  · simp

/-- HTML-tag stripping on strings. -/
def stripTags (s : String) : String := String.mk (stripTagsAux s.toList)

/-- The line rendered for one coverage row (`server.py:863-874`): rows with
at least four cells have each cell rendered through `str`, tag-stripped and
stripped of whitespace; shorter rows are rendered as their repr (a row that
is not a list would raise at `len(row)`; rows are modelled as parsed-JSON
values and non-lists take the repr branch). -/
def coverageRowLine (row : Json) : String :=
  match row with
  | .arr (f :: st :: pct :: ut :: _) =>
      "- `" ++ pyStrip (stripTags f.pyStr) ++ "`: " ++
        pyStrip (stripTags st.pyStr) ++ " (" ++
        pyStrip (stripTags pct.pyStr) ++ ") — " ++ pyStrip (stripTags ut.pyStr)
  | _ => "- " ++ row.pyStr

/-- Pagination and rendering of `get_coverage_comparison` after the fetch
(`server.py:832-880`); `iTotalRecords` and `iTotalDisplayRecords` are the
numeric totals the endpoint returns. -/
def renderCoverage (project : String) (total_records total_display : Int)
    (rows : List Json) (limit offset : Int) : List String :=
  let limit := effLimit limit
  let offset := effOffset offset
  let lines := ["# Coverage Comparison — " ++ project, ""] ++
    ["**Total files**: " ++ toString total_records] ++
    (if total_display ≠ total_records then
      ["**Displayed**: " ++ toString total_display] else []) ++
    [""]
  if rows.isEmpty then lines ++ ["No coverage data found."]
  else
    let total := rows.length
    let page := pySlice rows offset limit
    if page.isEmpty then
      lines ++ ["## Files (" ++ toString total ++
        " total) — no results in this range (offset=" ++
        toString offset ++ ")."]
    else
      lines ++
      ["## Files (" ++ toString total ++ " total, showing " ++
        toString (offset + 1) ++ "–" ++
        toString (offset + (page.length : Int)) ++ ")", ""] ++
      page.map coverageRowLine ++
      (let remaining := (total : Int) - offset - (page.length : Int)
       if remaining > 0 then
         ["\n... " ++ toString remaining ++ " more (use offset=" ++
           toString (offset + limit) ++ " to see next page)"]
       else [])

/-- Message of the `TypeError` raised by the call at `server.py:828`. -/
def coverageCallTypeErrorMsg : String :=
  "get_coverage_comparison() takes from 2 to 3 positional arguments but 4 were given"

/-- The client call made by the coverage tool, `server.py:828`:
`await client.get_coverage_comparison(project, date, build_id)`.  The client
method is declared `get_coverage_comparison(self, project, date=None)`
(`client.py:260-262`) and accepts no third positional parameter, so Python
raises `TypeError` at the call itself, before any upstream request is
issued, whatever the argument values are. -/
def callClientCoverage (_project : String) (_date : Option String)
    (_build_id : Option Int) (_outcome : HttpOutcome) : Except PyExc Json :=
  .error (.typeError coverageCallTypeErrorMsg)

/-- The `get_coverage_comparison` tool (`server.py:807-880`): the client
call inside the `try` block raises `TypeError`, which `except CDashError`
does not catch, so the rendering below it is unreachable. -/
def getCoverageComparisonTool (project : String) (date : Option String)
    (build_id : Option Int) (limit offset : Int) (outcome : HttpOutcome) :
    Except PyExc String :=
  toolBoundary (callClientCoverage project date build_id outcome) (fun data =>
    String.intercalate "\n"
      (renderCoverage project (jIntD data "iTotalRecords" 0)
        (jIntD data "iTotalDisplayRecords" 0) (jList data "aaData")
        limit offset))

/-- Build header fields read by `get_dynamic_analysis`
(`server.py:916-921`); the `build` dict is falsy (absent/empty) or carries
these fields. -/
structure DynBuild where
  buildname : String
  site : String
  buildtime : String
deriving Repr, DecidableEq

/-- One dynamic-analysis entry (`server.py:942-944`): `name` and `status`
via `.get` with `"?"` defaults, and the raw `defects` value (default
`[]`). -/
structure DynTest where
  name : String
  status : String
  defects : Json
deriving Repr

/-- Extraction of a dynamic-analysis entry (`server.py:942-944`). -/
def extractDynTest (a : Json) : DynTest :=
  { name := jStrD a "name" "?"
    status := jStrD a "status" "?"
    defects := a.getD "defects" (.arr []) }

/-- The expression `sum(int(d) for d in defects)` (`server.py:946`):
iterate the value (a list over its elements, a string over its characters,
a dict over its keys; other values raise `TypeError`), converting each
element with `int` and summing. -/
def pySumInt (defects : Json) : Except PyExc Int :=
  match defects with
  | .arr ds => ds.foldlM (fun acc d => (pyInt d).map (acc + ·)) 0
  | .str s =>
      s.toList.foldlM
        (fun acc c => (pyIntOfString (String.mk [c])).map (acc + ·)) 0
  | .obj fs =>
      fs.foldlM (fun acc p => (pyIntOfString p.1).map (acc + ·)) 0
  | _ => .error (.typeError "argument is not iterable")

/-- The guarded defect count of `server.py:945-948`:
`try: total_defects = sum(int(d) for d in defects)` with
`except (ValueError, TypeError): total_defects = 0`.  Every failure of the
sum is a `ValueError` or `TypeError`, so any unparseable defects value
counts as zero. -/
def totalDefects (a : DynTest) : Int :=
  match pySumInt a.defects with
  | .ok n => n
  | .error _ => 0

/-- The classification loop of `server.py:939-953`: tests whose defect
counts sum to a positive value are collected in order (paired with their
count, as the source keeps `(name, status, defects, total_defects)`
tuples); the rest only increment the `clean` counter. -/
def splitDefects : List DynTest → List (DynTest × Int) × Nat
  | [] => ([], 0)
  | a :: rest =>
      let r := splitDefects rest
      let td := totalDefects a
      if td > 0 then ((a, td) :: r.1, r.2) else (r.1, r.2 + 1)

/-- The line rendered per defect entry (`server.py:964`). -/
def dynEntryLine (p : DynTest × Int) : String :=
  "- **" ++ p.1.name ++ "** [" ++ p.1.status ++ "] — " ++
    toString p.2 ++ " defect(s)"

/-- Rendering of `get_dynamic_analysis` after the fetch
(`server.py:908-976`). -/
def renderDynamicAnalysis (build_id : Int) (title : Option String)
    (binfo : Option DynBuild) (defect_types : List String)
    (analyses : List DynTest) (limit offset : Int) : List String :=
  let limit := effLimit limit
  let offset := effOffset offset
  let lines := ["# " ++ (match title with
      | some t => t
      | none => "Dynamic Analysis (build_id=" ++ toString build_id ++ ")"),
    ""]
  let lines := lines ++ (match binfo with
    | some b => ["**Build**: " ++ b.buildname, "**Site**: " ++ b.site,
        "**Time**: " ++ b.buildtime, ""]
    | none => [])
  let lines := lines ++ (if defect_types.isEmpty then [] else
    ["**Defect types**: " ++ String.intercalate ", " defect_types, ""])
  if analyses.isEmpty then lines ++ ["No dynamic analysis results found."]
  else
    let lines := lines ++
      ["## Results (" ++ toString analyses.length ++ " tests)", ""]
    let r := splitDefects analyses
    let with_defects := r.1
    let clean := r.2
    let total := with_defects.length
    let page := pySlice with_defects offset limit
    let lines := lines ++
      (if page.isEmpty ∧ 0 < total then
        [toString total ++
          " test(s) with defects — no results in this range (offset=" ++
          toString offset ++ ")."]
      else if ¬ page.isEmpty then
        ["Showing defects " ++ toString (offset + 1) ++ "–" ++
          toString (offset + (page.length : Int)) ++ " of " ++
          toString total ++ ":", ""] ++
        page.map dynEntryLine ++
        (let remaining := (total : Int) - offset - (page.length : Int)
         if remaining > 0 then
           ["\n... " ++ toString remaining ++ " more with defects" ++
             " (use offset=" ++ toString (offset + limit) ++
             " to see next page)"]
         else [])
      else [])
    lines ++ (if clean ≠ 0 then
      ["\n" ++ toString clean ++ " test(s) with no defects (clean)"]
    else [])

/-- Decomposition used to state the dynamic-analysis pagination property:
the lines preceding the defect section, which depend on the analyses but
not on the page window. -/
def dynCommonLines (build_id : Int) (title : Option String)
    (binfo : Option DynBuild) (defect_types : List String)
    (analyses : List DynTest) : List String :=
  ["# " ++ (match title with
      | some t => t
      | none => "Dynamic Analysis (build_id=" ++ toString build_id ++ ")"),
    ""] ++
  (match binfo with
    | some b => ["**Build**: " ++ b.buildname, "**Site**: " ++ b.site,
        "**Time**: " ++ b.buildtime, ""]
    | none => []) ++
  (if defect_types.isEmpty then [] else
    ["**Defect types**: " ++ String.intercalate ", " defect_types, ""]) ++
  ["## Results (" ++ toString analyses.length ++ " tests)", ""]

/-- Decomposition used to state the dynamic-analysis pagination property:
the defect section, which is the only part that depends on the page
window, computed from the positive-defect sublist alone. -/
def dynDefectLines (with_defects : List (DynTest × Int)) (limit offset : Int) :
    List String :=
  let total := with_defects.length
  let page := pySlice with_defects offset limit
  if page.isEmpty ∧ 0 < total then
    [toString total ++
      " test(s) with defects — no results in this range (offset=" ++
      toString offset ++ ")."]
  else if ¬ page.isEmpty then
    ["Showing defects " ++ toString (offset + 1) ++ "–" ++
      toString (offset + (page.length : Int)) ++ " of " ++
      toString total ++ ":", ""] ++
    page.map dynEntryLine ++
    (let remaining := (total : Int) - offset - (page.length : Int)
     if remaining > 0 then
       ["\n... " ++ toString remaining ++ " more with defects" ++
         " (use offset=" ++ toString (offset + limit) ++
         " to see next page)"]
     else [])
  else []

/-- Decomposition used to state the dynamic-analysis pagination property:
the single aggregate clean-count line, independent of the page window. -/
def dynCleanLines (clean : Nat) : List String :=
  if clean ≠ 0 then
    ["\n" ++ toString clean ++ " test(s) with no defects (clean)"]
  else []

/-- C4: the transport get operation classifies each request outcome: 401 or
403 fails with AuthError; 404 fails with NotFoundError naming the requested
path; a connect failure or timeout fails with ConnectionError; any other
non-2xx status fails with the generic HTTP error; and a 2xx response with a
valid JSON body returns the parsed body unchanged. -/
theorem transport_status_classification
    (base_url path cause : String) (status : Int) (body : Option Json) :
    ((status = 401 ∨ status = 403) →
      ∃ m, clientGet base_url path (.response status body) =
        .error (.cdashAuth m)) ∧
    (status = 404 →
      clientGet base_url path (.response status body) =
        .error (.cdashNotFound ("Resource not found: " ++ path))) ∧
    (clientGet base_url path (.connectError cause) =
      .error (.cdashConnection
        ("Cannot connect to " ++ base_url ++ ": " ++ cause))) ∧
    (clientGet base_url path (.timeout cause) =
      .error (.cdashConnection
        ("Request to " ++ base_url ++ " timed out: " ++ cause))) ∧
    (status ≠ 401 → status ≠ 403 → status ≠ 404 →
      ¬ (200 ≤ status ∧ status ≤ 299) →
      clientGet base_url path (.response status body) =
        .error (.httpStatusError status)) ∧
    (∀ j, 200 ≤ status → status ≤ 299 → body = some j →
      clientGet base_url path (.response status body) = .ok j) := by
  refine ⟨?_, ?_, rfl, rfl, ?_, ?_⟩
  · rintro (rfl | rfl) <;> exact ⟨_, rfl⟩
  · rintro rfl
    norm_num [clientGet]
  · intro h1 h2 h3 h4
    have hor : ¬ (status = 401 ∨ status = 403) := by tauto
    simp [clientGet, hor, h3, h4]
  · intro j h1 h2 hb
    subst hb
    have hor : ¬ (status = 401 ∨ status = 403) := by omega
    have h404 : status ≠ 404 := by omega
    have h2xx : 200 ≤ status ∧ status ≤ 299 := ⟨h1, h2⟩
    simp [clientGet, hor, h404, h2xx]

/-- Witness for the transport classification theorem at concrete inputs:
a 404 response, a 500 response and a 200 response with body. -/
theorem transport_status_classification_witness :
    clientGet "https://open.cdash.org" "/api/v1/index.php"
      (.response 404 none) =
      .error (.cdashNotFound ("Resource not found: " ++ "/api/v1/index.php")) ∧
    clientGet "https://open.cdash.org" "/api/v1/index.php"
      (.response 500 none) = .error (.httpStatusError 500) ∧
    clientGet "https://open.cdash.org" "/api/v1/index.php"
      (.response 200 (some (Json.obj []))) = .ok (Json.obj []) := by
  refine ⟨?_, ?_, ?_⟩
  · exact (transport_status_classification "https://open.cdash.org"
      "/api/v1/index.php" "" 404 none).2.1 rfl
  · exact (transport_status_classification "https://open.cdash.org"
      "/api/v1/index.php" "" 500 none).2.2.2.2.1
      (by decide) (by decide) (by decide) (by decide)
  · exact (transport_status_classification "https://open.cdash.org"
      "/api/v1/index.php" "" 200 (some (Json.obj []))).2.2.2.2.2
      (Json.obj []) (by decide) (by decide) rfl

/-- C5: for every list-producing tool, the effective limit used for slicing
equals clamp(limit, 1, 200) and the effective offset equals max(offset, 0);
consequently every list renderer is invariant under replacing its window by
the clamped window. -/
theorem pagination_window_clamp (limit offset : Int) :
    effLimit limit = clampSpec limit 1 200 ∧
    effOffset offset = max offset 0 ∧
    (∀ (project : String) (tests : List FailingTest),
      renderFailingTests project tests limit offset =
        renderFailingTests project tests (clampSpec limit 1 200)
          (max offset 0)) ∧
    (∀ (build_id : Int) (sf : Option String) (tests : List BuildTest),
      renderBuildTests build_id sf tests limit offset =
        renderBuildTests build_id sf tests (clampSpec limit 1 200)
          (max offset 0)) ∧
    (∀ (build_id : Int) (warnings : Bool) (errors : List BuildErr),
      renderBuildErrors build_id warnings errors limit offset =
        renderBuildErrors build_id warnings errors (clampSpec limit 1 200)
          (max offset 0)) ∧
    (∀ (project : String) (tr td : Int) (rows : List Json),
      renderCoverage project tr td rows limit offset =
        renderCoverage project tr td rows (clampSpec limit 1 200)
          (max offset 0)) ∧
    (∀ (build_id : Int) (title : Option String) (binfo : Option DynBuild)
        (dts : List String) (analyses : List DynTest),
      renderDynamicAnalysis build_id title binfo dts analyses limit offset =
        renderDynamicAnalysis build_id title binfo dts analyses
          (clampSpec limit 1 200) (max offset 0)) := by
  have hL : effLimit (clampSpec limit 1 200) = effLimit limit := by
    simp only [effLimit, clampSpec]
    omega
  have hO : effOffset (max offset 0) = effOffset offset := by
    simp only [effOffset]
    omega
  refine ⟨?_, ?_, ?_, ?_, ?_, ?_, ?_⟩
  · simp only [effLimit, clampSpec]
    omega
  · simp only [effOffset]
    omega
  · intro project tests
    unfold renderFailingTests
    rw [hL, hO]
  · intro build_id sf tests
    unfold renderBuildTests
    rw [hL, hO]
  · intro build_id warnings errors
    unfold renderBuildErrors
    rw [hL, hO]
  · intro project tr td rows
    unfold renderCoverage
    rw [hL, hO]
  · intro build_id title binfo dts analyses
    unfold renderDynamicAnalysis
    rw [hL, hO]

/-- C7: free-text fields are truncated at fixed per-field character budgets
with a trailing ellipsis marker: a details field of length 300 under the
200-char budget yields exactly its first 200 characters plus the marker, a
details field of length 150 is rendered unchanged, and the budgets are 150
(build-test details) or 200 (failing-test details), 500 (error text), 5000
(configure output) and 8000 (test output). -/
theorem truncation_budgets (s : String) :
    (s.length = 300 → truncateFailingDetails s = s.take 200 ++ "...") ∧
    (s.length = 150 → truncateFailingDetails s = s) ∧
    (s.length ≤ 200 → truncateFailingDetails s = s) ∧
    (200 < s.length → truncateFailingDetails s = s.take 200 ++ "...") ∧
    (s.length ≤ 150 → truncateBuildTestDetails s = s) ∧
    (150 < s.length → truncateBuildTestDetails s = s.take 150 ++ "...") ∧
    (s.length ≤ 500 → truncateErrorText s = s) ∧
    (500 < s.length → truncateErrorText s = s.take 500 ++ "...") ∧
    (s.length ≤ 5000 → truncateConfigureOutput s = s) ∧
    (5000 < s.length → truncateConfigureOutput s =
      s.take 5000 ++ "\n... (truncated, showing first 5000 chars)") ∧
    (s.length ≤ 8000 → truncateTestOutput s = s) ∧
    (8000 < s.length → truncateTestOutput s =
      s.take 8000 ++ "\n... (truncated, showing first 8000 chars)") := by
  unfold truncateFailingDetails truncateBuildTestDetails truncateErrorText
    truncateConfigureOutput truncateTestOutput
  refine ⟨?_, ?_, ?_, ?_, ?_, ?_, ?_, ?_, ?_, ?_, ?_, ?_⟩ <;> intro h
  · rw [if_pos (by omega)]
  · rw [if_neg (by omega)]
  · rw [if_neg (by omega)]
  · rw [if_pos (by omega)]
  · rw [if_neg (by omega)]
  · rw [if_pos (by omega)]
  · rw [if_neg (by omega)]
  · rw [if_pos (by omega)]
  · rw [if_neg (by omega)]
  · rw [if_pos (by omega)]
  · rw [if_neg (by omega)]
  · rw [if_pos (by omega)]

set_option maxRecDepth 4000 in
/-- Witness for the truncation theorem on concrete strings of length 300
and 150. -/
theorem truncation_budgets_witness :
    truncateFailingDetails (String.mk (List.replicate 300 'a')) =
      (String.mk (List.replicate 300 'a')).take 200 ++ "..." ∧
    truncateFailingDetails (String.mk (List.replicate 150 'a')) =
      String.mk (List.replicate 150 'a') := by
  constructor
  · exact (truncation_budgets (String.mk (List.replicate 300 'a'))).1
      (by decide)
  · exact (truncation_budgets (String.mk (List.replicate 150 'a'))).2.1
      (by decide)

/-- C1 (amended): a classified error that is a CDashError (AuthError,
NotFoundError, ConnectionError) is caught at the tool boundary of every
tool and converted to a plain "Error: <message>" text result; the generic
other-non-2xx case raises httpx's HTTPStatusError, which is not a
CDashError and propagates out of the tool uncaught. -/
theorem classified_error_tool_boundary :
    (∀ (A : Type) (fetch : Except PyExc A) (render : A → String) (e : PyExc),
      fetch = .error e →
        (e.isCDashError = true →
          toolBoundary fetch render = .ok ("Error: " ++ e.message)) ∧
        (e.isCDashError = false → toolBoundary fetch render = .error e)) ∧
    (∀ m, (PyExc.cdashAuth m).isCDashError = true) ∧
    (∀ m, (PyExc.cdashNotFound m).isCDashError = true) ∧
    (∀ m, (PyExc.cdashConnection m).isCDashError = true) ∧
    (∀ s, (PyExc.httpStatusError s).isCDashError = false) ∧
    (∀ (base_url project : String) (date : Option String) (cause : String),
      getDashboardTool base_url project date (.connectError cause) =
        .ok ("Error: " ++
          ("Cannot connect to " ++ base_url ++ ": " ++ cause))) ∧
    (∀ (base_url project : String) (date : Option String) (status : Int)
        (body : Option Json),
      status ≠ 401 → status ≠ 403 → status ≠ 404 →
      ¬ (200 ≤ status ∧ status ≤ 299) →
      getDashboardTool base_url project date (.response status body) =
        .error (.httpStatusError status)) := by
  refine ⟨?_, fun _ => rfl, fun _ => rfl, fun _ => rfl, fun _ => rfl,
    fun _ _ _ _ => rfl, ?_⟩
  · intro A fetch render e hf
    subst hf
    constructor
    · intro hc
      simp [toolBoundary, hc]
    · intro hc
      simp [toolBoundary, hc]
  · intro base_url project date status body h1 h2 h3 h4
    have hor : ¬ (status = 401 ∨ status = 403) := by tauto
    simp [getDashboardTool, toolBoundary, clientGet, hor, h3, h4,
      PyExc.isCDashError]

/-- Witness for the amended tool-boundary theorem: a concrete AuthError is
converted to a textual result. -/
theorem classified_error_tool_boundary_witness :
    toolBoundary (A := Json)
      (.error (.cdashAuth "Authentication failed (401). Check your CDASH_TOKEN environment variable."))
      (fun _ => "") =
      .ok ("Error: " ++
        "Authentication failed (401). Check your CDASH_TOKEN environment variable.") :=
  (classified_error_tool_boundary.1 Json _ (fun _ => "") _ rfl).1 rfl

/-- Counterexample to C1 as stated: on a generic non-2xx status (500) the
dashboard tool does not return a textual result; the HTTPStatusError
escapes the tool boundary as a raised exception. -/
theorem generic_http_error_escapes_tool_boundary :
    getDashboardTool "https://open.cdash.org" "PublicDashboard" none
      (.response 500 none) = .error (.httpStatusError 500) := by
  simp [getDashboardTool, toolBoundary, clientGet, PyExc.isCDashError]

/-- C2 (code bug): every invocation of the coverage-comparison tool raises
TypeError — `server.py:828` passes `(project, date, build_id)` to a client
method declared with parameters `(project, date)` — so the tool never
returns a rendered report nor a textual "Error: ..." result. -/
theorem coverage_comparison_call_type_error (project : String)
    (date : Option String) (build_id : Option Int) (limit offset : Int)
    (outcome : HttpOutcome) :
    getCoverageComparisonTool project date build_id limit offset outcome =
      .error (.typeError coverageCallTypeErrorMsg) := rfl

/-- Helper: the not-passed filter block applied to the base parameters
appends the five filter entries, for every project and date. -/
theorem addNotPassedFilter_base (project : String) (date : Option String) :
    addNotPassedFilter (baseParams project date) =
      baseParams project date ++
        [("filtercount", "1"), ("showfilters", "1"), ("field1", "status"),
         ("compare1", "62"), ("value1", "Passed")] := by
  cases date with
  | none => rfl
  | some d =>
      by_cases hd : d = ""
      · subst hd; rfl
      · have hd' : (d != "") = true := by simp [hd]
        simp only [baseParams, hd']
        rfl

/-- Helper: the test-name filter block applied after the not-passed block
replaces `filtercount` by 2 and appends the second triple with
`filtercombine=and`. -/
theorem addTestNameFilter_after_notPassed (project tn : String)
    (date : Option String) :
    addTestNameFilter (baseParams project date ++
        [("filtercount", "1"), ("showfilters", "1"), ("field1", "status"),
         ("compare1", "62"), ("value1", "Passed")]) tn =
      baseParams project date ++
        [("filtercount", "2"), ("showfilters", "1"), ("field1", "status"),
         ("compare1", "62"), ("value1", "Passed"), ("filtercombine", "and"),
         ("field2", "testname"), ("compare2", "63"), ("value2", tn)] := by
  cases date with
  | none => rfl
  | some d =>
      by_cases hd : d = ""
      · subst hd; rfl
      · have hd' : (d != "") = true := by simp [hd]
        simp only [baseParams, hd']
        rfl

/-- Helper: the test-name filter block applied directly to the base
parameters encodes a single triple at index 1 with `filtercombine=and`. -/
theorem addTestNameFilter_on_base (project tn : String)
    (date : Option String) :
    addTestNameFilter (baseParams project date) tn =
      baseParams project date ++
        [("filtercount", "1"), ("showfilters", "1"), ("filtercombine", "and"),
         ("field1", "testname"), ("compare1", "63"), ("value1", tn)] := by
  cases date with
  | none => rfl
  | some d =>
      by_cases hd : d = ""
      · subst hd; rfl
      · have hd' : (d != "") = true := by simp [hd]
        simp only [baseParams, hd']
        rfl

/-- Helper: the base parameters hold only the `project` and `date` keys. -/
theorem baseParams_lookup (project : String) (date : Option String)
    (k : String) (h1 : k ≠ "project") (h2 : k ≠ "date") :
    (baseParams project date).lookup k = none := by
  have hb1 : (k == "project") = false := by simp [h1]
  have hb2 : (k == "date") = false := by simp [h2]
  cases date with
  | none => simp [baseParams, List.lookup, hb1]
  | some d =>
      by_cases hd : d = ""
      · subst hd; simp [baseParams, List.lookup, hb1]
      · have hd' : (d != "") = true := by simp [hd]
        simp [baseParams, hd', dictSet, List.lookup, hb1, hb2]

/-- Helper: looking a key up past a prefix in which it does not occur. -/
theorem lookup_append_of_left_none (a b : Params) (k : String)
    (h : a.lookup k = none) : (a ++ b).lookup k = b.lookup k := by
  induction a with
  | nil => rfl
  | cons p rest ih =>
      obtain ⟨k1, v1⟩ := p
      rw [List.cons_append, List.lookup]
      rw [List.lookup] at h
      cases hk : (k == k1) with
      | true => rw [hk] at h; simp at h
      | false => rw [hk] at h; exact ih h

/-- C9 (amended): every filter-encoded query uses 1-based contiguous
indices with `filtercount` equal to the number of encoded triples, but
`filtercombine=and` is only added by the test-name branch: the
not-passed-only query and the single-field equality query of the
build-tests operation omit `filtercombine`. -/
theorem filter_encoding_invariant (project tn sf : String)
    (date : Option String) (build_id : Int) :
    (queryTestsParams project date none "not_passed" =
      baseParams project date ++
        [("filtercount", "1"), ("showfilters", "1"), ("field1", "status"),
         ("compare1", "62"), ("value1", "Passed")]) ∧
    (tn ≠ "" → queryTestsParams project date (some tn) "not_passed" =
      baseParams project date ++
        [("filtercount", "2"), ("showfilters", "1"), ("field1", "status"),
         ("compare1", "62"), ("value1", "Passed"), ("filtercombine", "and"),
         ("field2", "testname"), ("compare2", "63"), ("value2", tn)]) ∧
    (tn ≠ "" → sf ≠ "not_passed" → queryTestsParams project date (some tn) sf =
      baseParams project date ++
        [("filtercount", "1"), ("showfilters", "1"), ("filtercombine", "and"),
         ("field1", "testname"), ("compare1", "63"), ("value1", tn)]) ∧
    (sf ≠ "" → buildTestsParams build_id (some sf) =
      [("buildid", toString build_id), ("filtercount", "1"),
       ("showfilters", "1"), ("field1", "status"), ("compare1", "61"),
       ("value1", pyCapitalize sf)]) ∧
    ((queryTestsParams project date none "not_passed").lookup "filtercombine" =
      none) ∧
    (sf ≠ "" →
      (buildTestsParams build_id (some sf)).lookup "filtercombine" = none) := by
  have hB : queryTestsParams project date none "not_passed" =
      addNotPassedFilter (baseParams project date) := rfl
  have hBT : sf ≠ "" → buildTestsParams build_id (some sf) =
      [("buildid", toString build_id), ("filtercount", "1"),
       ("showfilters", "1"), ("field1", "status"), ("compare1", "61"),
       ("value1", pyCapitalize sf)] := by
    intro hsf
    have e : buildTestsParams build_id (some sf) =
        if sf = "" then [("buildid", toString build_id)]
        else dictSet (dictSet (dictSet (dictSet (dictSet
          [("buildid", toString build_id)]
          "filtercount" "1") "showfilters" "1") "field1" "status")
          "compare1" "61") "value1" (pyCapitalize sf) := rfl
    rw [e, if_neg hsf]
    rfl
  refine ⟨?_, ?_, ?_, hBT, ?_, ?_⟩
  · rw [hB, addNotPassedFilter_base]
  · intro htn
    have e : queryTestsParams project date (some tn) "not_passed" =
        if tn = "" then addNotPassedFilter (baseParams project date)
        else addTestNameFilter (addNotPassedFilter (baseParams project date))
          tn := rfl
    rw [e, if_neg htn, addNotPassedFilter_base,
      addTestNameFilter_after_notPassed]
  · intro htn hsf
    have e : queryTestsParams project date (some tn) sf =
        if tn = "" then
          (if sf = "not_passed" then
            addNotPassedFilter (baseParams project date)
          else baseParams project date)
        else addTestNameFilter
          (if sf = "not_passed" then
            addNotPassedFilter (baseParams project date)
          else baseParams project date) tn := rfl
    rw [e, if_neg htn, if_neg hsf, addTestNameFilter_on_base]
  · rw [hB, addNotPassedFilter_base,
      lookup_append_of_left_none _ _ _
        (baseParams_lookup project date "filtercombine"
          (by decide) (by decide))]
    rfl
  · intro hsf
    rw [hBT hsf]
    rfl

/-- Witness for the filter-encoding theorem: the combined not-passed and
test-name query at a concrete test name. -/
theorem filter_encoding_invariant_witness :
    queryTestsParams "PublicDashboard" none (some "mytest") "not_passed" =
      baseParams "PublicDashboard" none ++
        [("filtercount", "2"), ("showfilters", "1"), ("field1", "status"),
         ("compare1", "62"), ("value1", "Passed"), ("filtercombine", "and"),
         ("field2", "testname"), ("compare2", "63"), ("value2", "mytest")] :=
  (filter_encoding_invariant "PublicDashboard" "mytest" "" none 0).2.1
    (by decide)

/-- Counterexample to C9 as stated: the not-passed status query encodes one
filter triple with `filtercount=1` but carries no `filtercombine`
parameter at all. -/
theorem not_passed_filter_omits_filtercombine :
    (queryTestsParams "PublicDashboard" none none "not_passed").lookup
        "filtercombine" = none ∧
    (queryTestsParams "PublicDashboard" none none "not_passed").lookup
        "filtercount" = some "1" ∧
    (queryTestsParams "PublicDashboard" none none "not_passed").lookup
        "field1" = some "status" := ⟨rfl, rfl, rfl⟩

/-- C8: the test-summary operation resolves the project display name first
(the index request is always the first upstream request issued); when the
index response contains no `projectid` field it fails with NotFoundError
naming the project and the dependent testSummary request is never issued;
on successful resolution exactly the index request and then the dependent
testSummary request are issued, in that order. -/
theorem test_summary_resolution_sequencing
    (net : Request → Except PyExc Json) (project test_name : String)
    (date : Option String) :
    ((clientGetTestSummary net project test_name date).1.head? =
      some (indexRequest project)) ∧
    (∀ fields : List (String × Json),
      net (indexRequest project) = .ok (Json.obj fields) →
      fields.lookup "projectid" = none →
      clientGetTestSummary net project test_name date =
        ([indexRequest project],
         .error (.cdashNotFound ("Project not found: " ++ project)))) ∧
    (∀ (data : Json) (pid : Int),
      net (indexRequest project) = .ok data →
      (data.getD "projectid" Json.null).truthy = true →
      pyInt (data.getD "projectid" Json.null) = .ok pid →
      clientGetTestSummary net project test_name date =
        ([indexRequest project, testSummaryRequest pid test_name date],
         net (testSummaryRequest pid test_name date))) := by
  refine ⟨?_, ?_, ?_⟩
  · unfold clientGetTestSummary resolveProjectId
    cases hnet : net (indexRequest project) with
    | error e => simp [hnet]
    | ok data =>
        cases ht : (data.getD "projectid" Json.null).truthy with
        | false => simp [hnet, ht]
        | true =>
            cases hp : pyInt (data.getD "projectid" Json.null) <;>
              simp [hnet, ht, hp]
  · intro fields hnet hlk
    have hfield : (Json.obj fields).getD "projectid" Json.null = Json.null := by
      simp [Json.getD, Json.getField?, hlk]
    simp [clientGetTestSummary, resolveProjectId, hnet, hfield, Json.truthy]
  · intro data pid hnet ht hp
    simp [clientGetTestSummary, resolveProjectId, hnet, ht, hp]

/-- Witness for the resolution theorem: an index response without a
`projectid` field makes the summary operation fail with NotFoundError
naming the project, after issuing only the index request. -/
theorem test_summary_resolution_sequencing_witness :
    clientGetTestSummary (fun _ => .ok (Json.obj [("title", Json.str "T")]))
      "MyProj" "test1" none =
      ([indexRequest "MyProj"],
       .error (.cdashNotFound ("Project not found: " ++ "MyProj"))) :=
  (test_summary_resolution_sequencing
    (fun _ => .ok (Json.obj [("title", Json.str "T")]))
    "MyProj" "test1" none).2.1 [("title", Json.str "T")] rfl rfl

/-- Helper: the dashboard per-group loop distributes over list append, the
second run starting from the first run's final shown counter. -/
theorem dashGroupLoop_append (pre rest : List DashBuild) (shown : Nat) :
    dashGroupLoop (pre ++ rest) shown =
      ((dashGroupLoop pre shown).1 ++
        (dashGroupLoop rest (dashGroupLoop pre shown).2).1,
       (dashGroupLoop rest (dashGroupLoop pre shown).2).2) := by
  induction pre generalizing shown with
  | nil => simp [dashGroupLoop]
  | cons b pre' ih =>
      simp only [List.cons_append, dashGroupLoop]
      by_cases h : (hasIssues b || decide (shown < 20)) = true
      · simp [h, ih]
      · simp [h, ih]

/-- Helper: the final shown counter equals the starting counter plus the
number of lines the loop rendered. -/
theorem dashGroupLoop_shown (builds : List DashBuild) (shown : Nat) :
    (dashGroupLoop builds shown).2 = shown + (dashGroupLoop builds shown).1.length := by
  induction builds generalizing shown with
  | nil => simp [dashGroupLoop]
  | cons b rest ih =>
      simp only [dashGroupLoop]
      by_cases h : (hasIssues b || decide (shown < 20)) = true
      · simp only [h, if_true, List.length_cons]
        rw [ih (shown + 1)]
        omega
      · simp [h, ih]

/-- C3 (amended): in the dashboard per-group build list, a build with any
configure error, compile error, test failure, or not-run test is always
rendered; a build without such issues is rendered exactly when fewer than
20 builds in total (with or without issues) have been listed before it;
once a build goes unshown, the remainder of the group is summarized by a
single `... and N more builds` count line. -/
theorem dashboard_visibility_policy (pre post : List DashBuild)
    (b : DashBuild) (group_name : String) :
    (hasIssues b = true →
      (dashGroupLoop (pre ++ b :: post) 0).1 =
        (dashGroupLoop pre 0).1 ++ dashBuildLine b ::
          (dashGroupLoop post ((dashGroupLoop pre 0).2 + 1)).1) ∧
    (hasIssues b = false → (dashGroupLoop pre 0).2 < 20 →
      (dashGroupLoop (pre ++ b :: post) 0).1 =
        (dashGroupLoop pre 0).1 ++ dashBuildLine b ::
          (dashGroupLoop post ((dashGroupLoop pre 0).2 + 1)).1) ∧
    (hasIssues b = false → 20 ≤ (dashGroupLoop pre 0).2 →
      (dashGroupLoop (pre ++ b :: post) 0).1 =
        (dashGroupLoop pre 0).1 ++
          (dashGroupLoop post (dashGroupLoop pre 0).2).1) ∧
    ((dashGroupLoop pre 0).2 = (dashGroupLoop pre 0).1.length) ∧
    (∀ builds : List DashBuild,
      (dashGroupLoop builds 0).2 < builds.length →
      renderDashGroup group_name builds =
        ["## " ++ group_name ++ " (" ++ toString builds.length ++
          " builds)", ""] ++
        (dashGroupLoop builds 0).1 ++
        ["  ... and " ++
          toString (builds.length - (dashGroupLoop builds 0).2) ++
          " more builds", ""]) := by
  refine ⟨?_, ?_, ?_, ?_, ?_⟩
  · intro hb
    rw [dashGroupLoop_append]
    simp only [dashGroupLoop, hb, Bool.true_or, if_true]
  · intro hb hlt
    rw [dashGroupLoop_append]
    simp only [dashGroupLoop, hb, Bool.false_or]
    rw [if_pos (by simpa using hlt)]
  · intro hb hge
    rw [dashGroupLoop_append]
    simp only [dashGroupLoop, hb, Bool.false_or]
    rw [if_neg (by simpa using hge)]
  · simpa using dashGroupLoop_shown pre 0
  · intro builds hlt
    simp only [renderDashGroup]
    rw [if_pos hlt]
    simp

/-- Witness for the dashboard visibility theorem: one issue build as the
whole prefix, a clean build behind it is rendered. -/
theorem dashboard_visibility_policy_witness :
    (dashGroupLoop
      ([⟨"failing", "siteA", 0, 0, 0, 1, 0, 0, "1"⟩] ++
        ⟨"clean", "siteB", 0, 0, 0, 0, 0, 0, "2"⟩ :: []) 0).1 =
      (dashGroupLoop [⟨"failing", "siteA", 0, 0, 0, 1, 0, 0, "1"⟩] 0).1 ++
        dashBuildLine ⟨"clean", "siteB", 0, 0, 0, 0, 0, 0, "2"⟩ ::
          (dashGroupLoop []
            ((dashGroupLoop [⟨"failing", "siteA", 0, 0, 0, 1, 0, 0, "1"⟩]
              0).2 + 1)).1 :=
  (dashboard_visibility_policy [⟨"failing", "siteA", 0, 0, 0, 1, 0, 0, "1"⟩]
    [] ⟨"clean", "siteB", 0, 0, 0, 0, 0, 0, "2"⟩ "Nightly").2.1 rfl
    (by decide)

/-- Counterexample to C3 as stated: after 20 issue builds (zero non-issue
builds listed), a clean 21st build is not rendered, although the claim
("until 20 non-issue builds have been listed") says it must be. -/
theorem dashboard_clean_build_hidden_after_20_issue_builds :
    hasIssues ⟨"clean", "siteB", 0, 0, 0, 0, 0, 0, "2"⟩ = false ∧
    (List.replicate 20
      (⟨"failing", "siteA", 0, 0, 0, 1, 0, 0, "1"⟩ : DashBuild)).all
        hasIssues = true ∧
    (dashGroupLoop (List.replicate 20
      ⟨"failing", "siteA", 0, 0, 0, 1, 0, 0, "1"⟩ ++
      [⟨"clean", "siteB", 0, 0, 0, 0, 0, 0, "2"⟩]) 0).1.length = 20 ∧
    ¬ dashBuildLine ⟨"clean", "siteB", 0, 0, 0, 0, 0, 0, "2"⟩ ∈
      (dashGroupLoop (List.replicate 20
        ⟨"failing", "siteA", 0, 0, 0, 1, 0, 0, "1"⟩ ++
        [⟨"clean", "siteB", 0, 0, 0, 0, 0, 0, "2"⟩]) 0).1 := by
  refine ⟨rfl, rfl, rfl, ?_⟩
  decide

/-- Helper: the dynamic-analysis classification loop computes the ordered
positive-defect sublist and the count of the remaining tests. -/
theorem splitDefects_eq (analyses : List DynTest) :
    (splitDefects analyses).1 =
      (analyses.filter (fun a => decide (0 < totalDefects a))).map
        (fun a => (a, totalDefects a)) ∧
    (splitDefects analyses).2 =
      (analyses.filter (fun a => decide (totalDefects a ≤ 0))).length := by
  induction analyses with
  | nil => exact ⟨rfl, rfl⟩
  | cons a rest ih =>
      by_cases h : totalDefects a > 0
      · have h2 : ¬ totalDefects a ≤ 0 := by omega
        simp [splitDefects, h, h2, ih.1, ih.2]
      · have h2 : totalDefects a ≤ 0 := by omega
        simp [splitDefects, h, h2, ih.1, ih.2]

/-- C10: the page window of the dynamic-analysis tool is applied only to
the sublist of tests whose defect counts sum to a positive integer; a test
whose defect entries cannot be parsed as integers counts as having zero
defects; and defect-free tests are never paginated — the output decomposes
into window-independent common lines, the defect section computed from the
positive-defect sublist alone, and a single aggregate clean-count line. -/
theorem dynamic_analysis_pagination_policy (build_id : Int)
    (title : Option String) (binfo : Option DynBuild) (dts : List String)
    (analyses : List DynTest) (limit offset : Int) :
    ((splitDefects analyses).1 =
      (analyses.filter (fun a => decide (0 < totalDefects a))).map
        (fun a => (a, totalDefects a))) ∧
    ((splitDefects analyses).2 =
      (analyses.filter (fun a => decide (totalDefects a ≤ 0))).length) ∧
    (∀ (a : DynTest) (e : PyExc),
      pySumInt a.defects = .error e → totalDefects a = 0) ∧
    (analyses ≠ [] →
      renderDynamicAnalysis build_id title binfo dts analyses limit offset =
        dynCommonLines build_id title binfo dts analyses ++
        dynDefectLines (splitDefects analyses).1 (effLimit limit)
          (effOffset offset) ++
        dynCleanLines (splitDefects analyses).2) := by
  refine ⟨(splitDefects_eq analyses).1, (splitDefects_eq analyses).2, ?_, ?_⟩
  · intro a e h
    unfold totalDefects
    rw [h]
  · intro hne
    have hni : analyses.isEmpty = false := by
      cases analyses with
      | nil => exact absurd rfl hne
      | cons a rest => rfl
    simp only [renderDynamicAnalysis, dynCommonLines, dynDefectLines,
      dynCleanLines, hni, Bool.false_eq_true, if_false]

/-- Witness for the dynamic-analysis theorem: one test with two defects and
one clean test. -/
theorem dynamic_analysis_pagination_policy_witness :
    renderDynamicAnalysis 7 none none []
      [⟨"t1", "Failed", Json.arr [Json.num 2]⟩,
       ⟨"t2", "Passed", Json.arr []⟩] 50 0 =
      dynCommonLines 7 none none []
        [⟨"t1", "Failed", Json.arr [Json.num 2]⟩,
         ⟨"t2", "Passed", Json.arr []⟩] ++
      dynDefectLines (splitDefects
        [⟨"t1", "Failed", Json.arr [Json.num 2]⟩,
         ⟨"t2", "Passed", Json.arr []⟩]).1 (effLimit 50) (effOffset 0) ++
      dynCleanLines (splitDefects
        [⟨"t1", "Failed", Json.arr [Json.num 2]⟩,
         ⟨"t2", "Passed", Json.arr []⟩]).2 :=
  (dynamic_analysis_pagination_policy 7 none none []
    [⟨"t1", "Failed", Json.arr [Json.num 2]⟩,
     ⟨"t2", "Passed", Json.arr []⟩] 50 0).2.2.2 (by simp)

/-- Helper: length of the effective page window slice, as an integer, when
the effective offset lies inside the list. -/
theorem pySlice_length_eff {α : Type} (xs : List α) (limit offset : Int)
    (h : effOffset offset < (xs.length : Int)) :
    ((pySlice xs (effOffset offset) (effLimit limit)).length : Int) =
      min (effLimit limit) ((xs.length : Int) - effOffset offset) := by
  unfold effOffset at h
  unfold pySlice effLimit effOffset
  rw [List.length_take, List.length_drop]
  omega

/-- Helper: the effective page window slice is empty exactly when the
effective offset is at or past the end of the list. -/
theorem pySlice_isEmpty_eff {α : Type} (xs : List α) (limit offset : Int) :
    (pySlice xs (effOffset offset) (effLimit limit)).isEmpty = true ↔
      (xs.length : Int) ≤ effOffset offset := by
  unfold pySlice effLimit effOffset
  rw [List.isEmpty_iff, ← List.length_eq_zero, List.length_take,
    List.length_drop]
  omega

/-- C6: for the list-producing tools, with effective window
(el, eo) = (effLimit limit, effOffset offset) over a source list of length
N: an empty source renders a none-found message; a non-empty source with
eo ≥ N renders the total and an explicit no-results-in-this-range message;
and with eo < N the header states the total and the 1-based inclusive range
[eo+1, eo + min el (N - eo)], one formatted entry is rendered per item of
the slice, and a trailer naming the remaining count and the next offset
eo + el appears exactly when items remain beyond the slice. -/
theorem pagination_rendering_cases (project : String) (bid : Int)
    (sf : Option String) (tests : List FailingTest)
    (btests : List BuildTest) (limit offset : Int) :
    (renderFailingTests project [] limit offset =
      ["# Failing Tests for " ++ project, "", "No failing tests found."]) ∧
    (tests ≠ [] → (tests.length : Int) ≤ effOffset offset →
      renderFailingTests project tests limit offset =
        ["# Failing Tests for " ++ project, "",
         "Found " ++ toString tests.length ++ " non-passing test result(s)" ++
           " — no results in this range (offset=" ++
           toString (effOffset offset) ++ ")."]) ∧
    (effOffset offset < (tests.length : Int) →
      renderFailingTests project tests limit offset =
        ["# Failing Tests for " ++ project, "",
         "Found " ++ toString tests.length ++ " non-passing test result(s)" ++
           " (showing " ++ toString (effOffset offset + 1) ++ "–" ++
           toString (effOffset offset +
             min (effLimit limit)
               ((tests.length : Int) - effOffset offset)) ++ "):", ""] ++
        (pySlice tests (effOffset offset) (effLimit limit)).flatMap
          failingTestLines ++
        (if (tests.length : Int) - effOffset offset -
            min (effLimit limit) ((tests.length : Int) - effOffset offset) >
            0 then
          ["... " ++ toString ((tests.length : Int) - effOffset offset -
              min (effLimit limit)
                ((tests.length : Int) - effOffset offset)) ++
            " more (use offset=" ++
            toString (effOffset offset + effLimit limit) ++
            " to see next page)"]
        else [])) ∧
    (renderBuildTests bid sf [] limit offset =
      ["# Tests for build " ++ toString bid ++
        (match sf with
         | some s => if s != "" then " (" ++ s ++ ")" else ""
         | none => ""), "", "No tests found."]) ∧
    (btests ≠ [] → (btests.length : Int) ≤ effOffset offset →
      renderBuildTests bid sf btests limit offset =
        ["# Tests for build " ++ toString bid ++
          (match sf with
           | some s => if s != "" then " (" ++ s ++ ")" else ""
           | none => ""), "",
         "Found " ++ toString btests.length ++
           " test(s) — no results in this range (offset=" ++
           toString (effOffset offset) ++ ")."]) ∧
    (effOffset offset < (btests.length : Int) →
      renderBuildTests bid sf btests limit offset =
        ["# Tests for build " ++ toString bid ++
          (match sf with
           | some s => if s != "" then " (" ++ s ++ ")" else ""
           | none => ""), "",
         "Found " ++ toString btests.length ++ " test(s) (showing " ++
           toString (effOffset offset + 1) ++ "–" ++
           toString (effOffset offset +
             min (effLimit limit)
               ((btests.length : Int) - effOffset offset)) ++ "):", ""] ++
        (pySlice btests (effOffset offset) (effLimit limit)).map
          buildTestLine ++
        (if (btests.length : Int) - effOffset offset -
            min (effLimit limit) ((btests.length : Int) - effOffset offset) >
            0 then
          ["\n... " ++ toString ((btests.length : Int) - effOffset offset -
              min (effLimit limit)
                ((btests.length : Int) - effOffset offset)) ++
            " more (use offset=" ++
            toString (effOffset offset + effLimit limit) ++
            " to see next page)"]
        else [])) := by
  refine ⟨rfl, ?_, ?_, rfl, ?_, ?_⟩
  · intro hne hle
    have hni : tests.isEmpty = false := by
      cases tests with
      | nil => exact absurd rfl hne
      | cons a r => rfl
    have hpe : (pySlice tests (effOffset offset) (effLimit limit)).isEmpty =
        true := (pySlice_isEmpty_eff tests limit offset).mpr hle
    simp only [renderFailingTests, hni, Bool.false_eq_true, if_false, hpe,
      if_true]
    rfl
  · intro h
    have hni : tests.isEmpty = false := by
      cases tests with
      | nil =>
          exfalso
          simp only [List.length_nil, Nat.cast_zero, effOffset] at h
          omega
      | cons a r => rfl
    have hnp : ¬ ((tests.length : Int) ≤ effOffset offset) := by omega
    have hpe : (pySlice tests (effOffset offset) (effLimit limit)).isEmpty =
        false := by
      cases hc : (pySlice tests (effOffset offset) (effLimit limit)).isEmpty
        with
      | false => rfl
      | true =>
          exact ((hnp ((pySlice_isEmpty_eff tests limit offset).mp hc)).elim)
    have hlen := pySlice_length_eff tests limit offset h
    simp only [renderFailingTests, hni, Bool.false_eq_true, if_false, hpe]
    rw [hlen]
    simp
  · intro hne hle
    have hni : btests.isEmpty = false := by
      cases btests with
      | nil => exact absurd rfl hne
      | cons a r => rfl
    have hpe : (pySlice btests (effOffset offset) (effLimit limit)).isEmpty =
        true := (pySlice_isEmpty_eff btests limit offset).mpr hle
    simp only [renderBuildTests, hni, Bool.false_eq_true, if_false, hpe,
      if_true]
    rfl
  · intro h
    have hni : btests.isEmpty = false := by
      cases btests with
      | nil =>
          exfalso
          simp only [List.length_nil, Nat.cast_zero, effOffset] at h
          omega
      | cons a r => rfl
    have hnp : ¬ ((btests.length : Int) ≤ effOffset offset) := by omega
    have hpe : (pySlice btests (effOffset offset) (effLimit limit)).isEmpty =
        false := by
      cases hc : (pySlice btests (effOffset offset) (effLimit limit)).isEmpty
        with
      | false => rfl
      | true =>
          exact ((hnp ((pySlice_isEmpty_eff btests limit offset).mp hc)).elim)
    have hlen := pySlice_length_eff btests limit offset h
    simp only [renderBuildTests, hni, Bool.false_eq_true, if_false, hpe]
    rw [hlen]
    simp

/-- Witness for the pagination rendering theorem: two non-passing tests
with the offset past the end renders the total and the explicit
no-results-in-this-range message. -/
theorem pagination_rendering_cases_witness :
    renderFailingTests "PublicDashboard"
      [⟨"t1", "Failed", "b1", "s1", "", "11"⟩,
       ⟨"t2", "Failed", "b2", "s2", "", "12"⟩] 50 5 =
      ["# Failing Tests for " ++ "PublicDashboard", "",
       "Found " ++ toString
           ([⟨"t1", "Failed", "b1", "s1", "", "11"⟩,
             ⟨"t2", "Failed", "b2", "s2", "", "12"⟩] :
             List FailingTest).length ++
         " non-passing test result(s)" ++
         " — no results in this range (offset=" ++ toString (effOffset 5) ++
         ")."] :=
  (pagination_rendering_cases "PublicDashboard" 0 none
    [⟨"t1", "Failed", "b1", "s1", "", "11"⟩,
     ⟨"t2", "Failed", "b2", "s2", "", "12"⟩] [] 50 5).2.1
    (by simp) (by decide)

end CdashMcp
